import Mathlib

/-!
Shallow embedding of src/kroger_mcp/tools/shared.py.

The module manages two things: a cached user-authenticated client handle
(get_authenticated_client) and a JSON preferences file
(_load_preferences, _save_preferences, get_preferred_location_id,
set_preferred_location_id).

External collaborators (the kroger_api library, the OS environment, the
filesystem and the json module) are modelled as oracles supplied in a
world structure; each oracle answer corresponds to one call the Python
code makes during a single top-level operation.  Python exceptions are
modelled as Except values carrying the exception message (the code only
ever raises and inspects generic Exception objects by their text).
-/

/-- Python str.join with a separator, as used for the missing-variables
message in load_and_validate_env. -/
def strJoin (sep : String) : List String → String
  | [] => ""
  | [x] => x
  | x :: y :: xs => x ++ sep ++ strJoin sep (y :: xs)

/-- Python substring test: the in operator on strings, used at line 97 of
shared.py to recognise the authentication-required signal by message text. -/
def strContains (s sub : String) : Bool :=
  decide (sub.data <:+: s.data)

/-- Propositional form of substring containment on strings. -/
def StrIncludes (sub s : String) : Prop :=
  sub.data <:+: s.data

instance (sub s : String) : Decidable (StrIncludes sub s) :=
  List.decidableInfix sub.data s.data

/-- Python truthiness of os.getenv(var): false when the variable is unset
or set to the empty string (the code tests if not os.getenv(var)). -/
def envTruthy (env : String → Option String) (v : String) : Bool :=
  match env v with
  | none => false
  | some s => s != ""

/-- The missing_vars list accumulated by load_and_validate_env. -/
def missingVars (env : String → Option String) (required : List String) : List String :=
  required.filter (fun v => !envTruthy env v)

/-- load_and_validate_env: collects every missing required variable and
raises one ValueError naming all of them, otherwise returns. -/
def load_and_validate_env (env : String → Option String) (required : List String) :
    Except String Unit :=
  let missing := missingVars env required
  if missing.isEmpty then Except.ok ()
  else Except.error ("Missing required environment variables: " ++ strJoin ", " missing)

deriving instance DecidableEq for Except

/-- Client handles are opaque objects; identity is all the claims need. -/
abbrev Client := Nat

/-- The token record loaded from the token file; the code only inspects
whether the key refresh_token is present. -/
structure TokenInfo where
  hasRefreshToken : Bool
deriving DecidableEq

/-- Externally observable steps get_authenticated_client may perform. -/
inductive Effect where
  | testToken (c : Client)
  | validateEnv
  | loadToken
  | constructClient
  | refreshToken
deriving DecidableEq

/-- Oracle answers for the collaborator calls made during one invocation of
get_authenticated_client.  Fallible calls answer with Except; test results
are plain booleans. -/
structure AuthWorld where
  env : String → Option String
  loadToken : Except String (Option TokenInfo)
  construct : Except String Client
  testLoaded : Bool
  refresh : Except String Unit
  testAfterRefresh : Bool
  testCached : Client → Bool

/-- Result, new cached-handle state, and effect trace of one invocation. -/
structure AuthOutcome where
  result : Except String Client
  cache : Option Client
  trace : List Effect
deriving DecidableEq

/-- Required environment variables for the user-authenticated client. -/
def requiredUserVars : List String :=
  ["KROGER_CLIENT_ID", "KROGER_CLIENT_SECRET", "KROGER_REDIRECT_URI"]

/-- The message of the exception raised when interactive authentication is
needed (lines 92 to 95 of shared.py). -/
def authRequiredMsg : String :=
  "Authentication required. Please use the start_authentication tool to begin the OAuth flow, then complete it with the complete_authentication tool."

/-- The except handler at lines 96 to 102: an error whose text contains
the phrase Authentication required is re-raised unchanged, every other
error is wrapped with the Authentication failed prefix. -/
def wrapAuthError (e : String) : String :=
  if strContains e "Authentication required" then e
  else "Authentication failed: " ++ e

/-- The try-block body of get_authenticated_client (lines 63 to 95):
validate the environment, load the persisted token, construct a client,
test the token, optionally refresh and re-test, and finally raise the
authentication-required signal when no step produced a valid client.
The cache component records the value the global _authenticated_client
holds when the body finishes. -/
def authRecoveryBody (w : AuthWorld) : AuthOutcome :=
  match load_and_validate_env w.env requiredUserVars with
  | Except.error e => ⟨Except.error e, none, [Effect.validateEnv]⟩
  | Except.ok () =>
    match w.loadToken with
    | Except.error e => ⟨Except.error e, none, [Effect.validateEnv, Effect.loadToken]⟩
    | Except.ok none =>
        ⟨Except.error authRequiredMsg, none, [Effect.validateEnv, Effect.loadToken]⟩
    | Except.ok (some ti) =>
      match w.construct with
      | Except.error e =>
          ⟨Except.error e, none,
            [Effect.validateEnv, Effect.loadToken, Effect.constructClient]⟩
      | Except.ok c =>
        if w.testLoaded then
          ⟨Except.ok c, some c,
            [Effect.validateEnv, Effect.loadToken, Effect.constructClient,
              Effect.testToken c]⟩
        else if ti.hasRefreshToken then
          match w.refresh with
          | Except.error _ =>
              ⟨Except.error authRequiredMsg, none,
                [Effect.validateEnv, Effect.loadToken, Effect.constructClient,
                  Effect.testToken c, Effect.refreshToken]⟩
          | Except.ok () =>
            if w.testAfterRefresh then
              ⟨Except.ok c, some c,
                [Effect.validateEnv, Effect.loadToken, Effect.constructClient,
                  Effect.testToken c, Effect.refreshToken, Effect.testToken c]⟩
            else
              ⟨Except.error authRequiredMsg, some c,
                [Effect.validateEnv, Effect.loadToken, Effect.constructClient,
                  Effect.testToken c, Effect.refreshToken, Effect.testToken c]⟩
        else
          ⟨Except.error authRequiredMsg, some c,
            [Effect.validateEnv, Effect.loadToken, Effect.constructClient,
              Effect.testToken c]⟩

/-- get_authenticated_client (lines 49 to 102): return the cached handle
when its token still validates, otherwise clear the cache and run the
recovery body, passing errors through the except handler wrapAuthError. -/
def get_authenticated_client (w : AuthWorld) (cache : Option Client) : AuthOutcome :=
  match cache with
  | some c =>
    if w.testCached c then ⟨Except.ok c, some c, [Effect.testToken c]⟩
    else
      match authRecoveryBody w with
      | ⟨Except.ok cl, st, tr⟩ =>
          ⟨Except.ok cl, st, Effect.testToken c :: tr⟩
      | ⟨Except.error e, st, tr⟩ =>
          ⟨Except.error (wrapAuthError e), st, Effect.testToken c :: tr⟩
  | none =>
    match authRecoveryBody w with
    | ⟨Except.ok cl, st, tr⟩ => ⟨Except.ok cl, st, tr⟩
    | ⟨Except.error e, st, tr⟩ => ⟨Except.error (wrapAuthError e), st, tr⟩

/-- invalidate_authenticated_client (lines 104 to 107). -/
def invalidate_authenticated_client (_cache : Option Client) : Option Client :=
  none

/-- JSON values that can appear in the preferences file.  The json module
round-trips these between the in-memory dict and the file; string
serialisation itself belongs to the Python standard library and is
modelled at the object level. -/
inductive JVal where
  | null
  | str (s : String)
  | num (n : Int)
  | boolVal (b : Bool)
deriving DecidableEq

/-- A parsed JSON object: an ordered association list, like a Python dict. -/
abbrev PrefObj := List (String × JVal)

/-- The default preferences record. -/
def defaultPrefs : PrefObj := [("preferred_location_id", JVal.null)]

/-- Python dict assignment d[k] = v: replace the value in place when the
key is present, otherwise append the new pair at the end. -/
def dictSet (d : PrefObj) (k : String) (v : JVal) : PrefObj :=
  if d.any (fun p => p.1 == k) then
    d.map (fun p => if p.1 == k then (k, v) else p)
  else d ++ [(k, v)]

/-- Python dict.get(k): the stored value, or None when the key is absent
(Python None and JSON null coincide after json round-trip). -/
def dictGet (d : PrefObj) (k : String) : JVal :=
  match d.find? (fun p => p.1 == k) with
  | some p => p.2
  | none => JVal.null

/-- Observable content of the preferences file: whitespace-only, invalid
JSON, or a parsed object (the only valid shape this module ever writes). -/
inductive FileContent where
  | emptyFile
  | invalidJson
  | obj (d : PrefObj)
deriving DecidableEq

/-- Filesystem state relevant to the preference store: the containing
directory, the preferences file, and the sibling temporary file (whose
content is never read back, so only its existence is tracked). -/
structure FS where
  dirExists : Bool
  file : Option FileContent
  temp : Bool
deriving DecidableEq

/-- Failure injection for the filesystem calls made during one top-level
preference operation.  renameSilent models the platform behaviour the
read-after-write verification in set_preferred_location_id guards
against: os.rename reports success but the target keeps its old content. -/
structure FSWorld where
  makedirsFails : Bool
  readFails : Bool
  writeTempFails : Bool
  renameFails : Bool
  renameSilent : Bool
  removeTempFails : Bool
deriving DecidableEq

/-- A world where every filesystem call behaves normally. -/
def noFail : FSWorld := ⟨false, false, false, false, false, false⟩

/-- Python exceptions the preference store can raise or handle, by kind. -/
inductive PyErr where
  | ioError (step : String)
  | jsonDecode
  | unboundLocal (n : String)
  | generic (msg : String)
deriving DecidableEq

/-- Which exceptions the except (json.JSONDecodeError, IOError) clause of
_load_preferences catches (OSError and IOError are the same class). -/
def isIOFamily : PyErr → Bool
  | PyErr.ioError _ => true
  | PyErr.jsonDecode => true
  | _ => false

/-- Diagnostic prints emitted by the preference store, in order. -/
inductive PrefLog where
  | warnLoad
  | warnCreateDefault
  | warnUnexpected
  | savedOk
  | saveError
  | retrievedId (v : JVal)
  | settingId (s : String)
  | savedIdOk (s : String)
deriving DecidableEq

/-- Result of one _save_preferences call. -/
structure SaveOutcome where
  result : Except PyErr Unit
  fs : FS
  log : List PrefLog
deriving DecidableEq

/-- The temp-file cleanup in the except handler of _save_preferences:
remove the temp file if it exists, swallowing a removal failure. -/
def cleanupTemp (w : FSWorld) (fs : FS) : FS :=
  if fs.temp then (if w.removeTempFails then fs else { fs with temp := false }) else fs

/-- _save_preferences (lines 146 to 174): ensure the directory, write the
record to a temporary file, rename it over the target, and on failure
clean up the temp file and re-raise.  When os.makedirs itself fails the
except handler evaluates os.path.exists(temp_file) before temp_file was
ever assigned, so Python raises UnboundLocalError there and the original
error is lost. -/
def save_preferences (w : FSWorld) (fs : FS) (_prefs : PrefObj) : SaveOutcome :=
  if w.makedirsFails then
    ⟨Except.error (PyErr.unboundLocal "temp_file"), fs, [PrefLog.saveError]⟩
  else
    let fs1 : FS := { fs with dirExists := true }
    if w.writeTempFails then
      let fs2 : FS := { fs1 with temp := true }
      ⟨Except.error (PyErr.ioError "write"), cleanupTemp w fs2, [PrefLog.saveError]⟩
    else
      let fs2 : FS := { fs1 with temp := true }
      if w.renameFails then
        ⟨Except.error (PyErr.ioError "rename"), cleanupTemp w fs2, [PrefLog.saveError]⟩
      else if w.renameSilent then
        ⟨Except.ok (), { fs2 with temp := false }, [PrefLog.savedOk]⟩
      else
        ⟨Except.ok (), { fs2 with temp := false, file := some (FileContent.obj _prefs) },
          [PrefLog.savedOk]⟩

/-- Result of one _load_preferences call: the returned record, the
filesystem afterwards, and the prints emitted. -/
structure LoadOutcome where
  prefs : PrefObj
  fs : FS
  log : List PrefLog
deriving DecidableEq

/-- The except (json.JSONDecodeError, IOError) handler of
_load_preferences: warn, best-effort recreate the file with the default
record (a failure of that save is swallowed with a second warning), and
return the default in memory. -/
def recoverWithDefault (w : FSWorld) (fs : FS) : LoadOutcome :=
  match save_preferences w fs defaultPrefs with
  | ⟨Except.ok _, fs2, lg⟩ => ⟨defaultPrefs, fs2, PrefLog.warnLoad :: lg⟩
  | ⟨Except.error _, fs2, lg⟩ =>
      ⟨defaultPrefs, fs2, PrefLog.warnLoad :: lg ++ [PrefLog.warnCreateDefault]⟩

/-- _load_preferences (lines 114 to 144).  Ensure the directory; if the
file exists read it, returning the parsed object, or the default record
for a whitespace-only file; if it does not exist, create it with the
default record.  An IOError or JSONDecodeError anywhere is recovered by
recoverWithDefault; any other exception is logged and the default
returned without persisting.  Every Python path returns, so the model is
a total function. -/
def load_preferences (w : FSWorld) (fs : FS) : LoadOutcome :=
  if w.makedirsFails then
    recoverWithDefault w fs
  else
    let fs1 : FS := { fs with dirExists := true }
    match fs1.file with
    | some content =>
      if w.readFails then recoverWithDefault w fs1
      else
        match content with
        | FileContent.emptyFile => ⟨defaultPrefs, fs1, []⟩
        | FileContent.invalidJson => recoverWithDefault w fs1
        | FileContent.obj d => ⟨d, fs1, []⟩
    | none =>
      match save_preferences w fs1 defaultPrefs with
      | ⟨Except.ok _, fs2, lg⟩ => ⟨defaultPrefs, fs2, lg⟩
      | ⟨Except.error e, fs2, lg⟩ =>
        if isIOFamily e then
          match save_preferences w fs2 defaultPrefs with
          | ⟨Except.ok _, fs3, lg2⟩ => ⟨defaultPrefs, fs3, lg ++ PrefLog.warnLoad :: lg2⟩
          | ⟨Except.error _, fs3, lg2⟩ =>
              ⟨defaultPrefs, fs3,
                lg ++ PrefLog.warnLoad :: lg2 ++ [PrefLog.warnCreateDefault]⟩
        else ⟨defaultPrefs, fs2, lg ++ [PrefLog.warnUnexpected]⟩

/-- Result of one get_preferred_location_id call. -/
structure GetOutcome where
  value : JVal
  fs : FS
  log : List PrefLog
deriving DecidableEq

/-- get_preferred_location_id (lines 176 to 181). -/
def get_preferred_location_id (w : FSWorld) (fs : FS) : GetOutcome :=
  match load_preferences w fs with
  | ⟨p, fs2, lg⟩ =>
      ⟨dictGet p "preferred_location_id", fs2,
        lg ++ [PrefLog.retrievedId (dictGet p "preferred_location_id")]⟩

/-- Python str() of a value interpolated into an f-string. -/
def jvalText : JVal → String
  | JVal.null => "None"
  | JVal.str s => s
  | JVal.num n => toString n
  | JVal.boolVal b => if b then "True" else "False"

/-- The message of the verification exception at line 194 of shared.py. -/
def verifyFailMsg (expected : String) (got : JVal) : String :=
  "Failed to save preferred location. Expected: " ++ expected ++ ", Got: " ++ jvalText got

/-- Result of one set_preferred_location_id call. -/
structure SetOutcome where
  result : Except PyErr Unit
  fs : FS
  log : List PrefLog
deriving DecidableEq

/-- set_preferred_location_id (lines 183 to 195): load, set the one key,
save, then reload and compare; a mismatch raises the verification
exception naming the expected and the actual value. -/
def set_preferred_location_id (w : FSWorld) (fs : FS) (locId : String) : SetOutcome :=
  match load_preferences w fs with
  | ⟨p1, fs1, lg1⟩ =>
    match save_preferences w fs1 (dictSet p1 "preferred_location_id" (JVal.str locId)) with
    | ⟨Except.error e, fs2, lg2⟩ =>
        ⟨Except.error e, fs2, PrefLog.settingId locId :: (lg1 ++ lg2)⟩
    | ⟨Except.ok _, fs2, lg2⟩ =>
      match load_preferences w fs2 with
      | ⟨p3, fs3, lg3⟩ =>
        if dictGet p3 "preferred_location_id" = JVal.str locId then
          ⟨Except.ok (), fs3,
            PrefLog.settingId locId ::
              (lg1 ++ lg2 ++ lg3 ++ [PrefLog.savedIdOk locId])⟩
        else
          ⟨Except.error
              (PyErr.generic (verifyFailMsg locId (dictGet p3 "preferred_location_id"))),
            fs3, PrefLog.settingId locId :: (lg1 ++ lg2 ++ lg3)⟩

/-! Concrete fixtures used by witness and counterexample theorems. -/

/-- An environment in which every variable is set to a non-empty value. -/
def envFull : String → Option String := fun _ => some "x"

/-- An environment with only KROGER_CLIENT_ID set. -/
def envOnlyId : String → Option String :=
  fun v => if v = "KROGER_CLIENT_ID" then some "x" else none

/-- A loaded token record that carries a refresh credential. -/
def tokenWithRefresh : TokenInfo := ⟨true⟩

/-- World: token loads, its token is invalid, the refresh call raises. -/
def wRefreshFail : AuthWorld :=
  ⟨envFull, Except.ok (some tokenWithRefresh), Except.ok 7, false,
    Except.error "boom", false, fun _ => true⟩

/-- World: the cached handle (if any) tests valid. -/
def wCachedValid : AuthWorld :=
  ⟨envFull, Except.ok none, Except.ok 7, false, Except.ok (), false, fun _ => true⟩

/-- World: the token loader raises an error whose message happens to
contain the phrase Authentication required. -/
def wTokenLeak : AuthWorld :=
  ⟨envFull,
    Except.error "Authentication required marker inside an unrelated token file error",
    Except.ok 7, false, Except.ok (), false, fun _ => true⟩

/-- World: constructing the client handle raises. -/
def wConstructFail : AuthWorld :=
  ⟨envFull, Except.ok (some tokenWithRefresh), Except.error "construction blew up",
    false, Except.ok (), false, fun _ => true⟩

/-- Filesystem: the preferences file exists but is empty. -/
def fsEmptyFile : FS := ⟨true, some FileContent.emptyFile, false⟩

/-- Filesystem: the preferences file holds invalid JSON. -/
def fsInvalid : FS := ⟨true, some FileContent.invalidJson, false⟩

/-- Filesystem: the preferences file holds an object with one unknown key. -/
def fsOther : FS := ⟨true, some (FileContent.obj [("other", JVal.str "keep")]), false⟩

/-- Filesystem: a valid object lacking the preferred_location_id key. -/
def fsNoKey : FS := ⟨true, some (FileContent.obj [("other", JVal.num 3)]), false⟩

/-- World: os.rename reports success but the target keeps its content. -/
def wRenameSilent : FSWorld := ⟨false, false, false, false, true, false⟩

/-- World: os.makedirs raises. -/
def wMakedirsFail : FSWorld := ⟨true, false, false, false, false, false⟩

/-- World: writing the temporary file raises. -/
def wWriteFail : FSWorld := ⟨false, false, true, false, false, false⟩

/-- World: os.rename raises. -/
def wRenameFail : FSWorld := ⟨false, false, false, true, false, false⟩

/-! Helper lemmas shared by the claim theorems. -/

theorem strJoin_cons₂ (sep x y : String) (xs : List String) :
    strJoin sep (x :: y :: xs) = x ++ sep ++ strJoin sep (y :: xs) := rfl

/-- Every element of a joined list occurs verbatim inside the join. -/
theorem infix_strJoin (sep v : String) (parts : List String) (hv : v ∈ parts) :
    v.data <:+: (strJoin sep parts).data := by
  induction parts with
  | nil => cases hv
  | cons x xs ih =>
    cases xs with
    | nil =>
      have hx : v = x := List.mem_singleton.mp hv
      subst hx
      exact List.infix_refl _
    | cons y ys =>
      rcases List.mem_cons.mp hv with hx | hv2
      · subst hx
        exact ⟨[], sep.data ++ (strJoin sep (y :: ys)).data, by
          simp [strJoin_cons₂, String.data_append]⟩
      · refine (ih hv2).trans ⟨(x ++ sep).data, [], ?_⟩
        simp [strJoin_cons₂, String.data_append]

/-- A string occurs inside any concatenation that surrounds it. -/
theorem strIncludes_mid (a b c : String) : StrIncludes b (a ++ b ++ c) :=
  ⟨a.data, c.data, by simp [String.data_append]⟩

/-- A right factor of a concatenation occurs inside it. -/
theorem strIncludes_right (a b : String) : StrIncludes b (a ++ b) :=
  ⟨a.data, [], by simp [String.data_append]⟩

/-- Containment extends through a prefixed string. -/
theorem strIncludes_append_left (a v s : String) (h : StrIncludes v s) :
    StrIncludes v (a ++ s) :=
  List.IsInfix.trans h ⟨a.data, [], by simp [String.data_append]⟩

/-- The authentication-required message contains its identifying phrase. -/
theorem wrapAuthError_authRequiredMsg : wrapAuthError authRequiredMsg = authRequiredMsg := rfl

/-- find? on a cons whose head satisfies the predicate, with the
predicate explicit so rewriting picks the intended instance. -/
theorem find?_cons_true {α : Type} (p : α → Bool) (a : α) (l : List α)
    (h : p a = true) : List.find? p (a :: l) = some a :=
  List.find?_cons_of_pos l h

/-- find? on a cons whose head fails the predicate, with the predicate
explicit so rewriting picks the intended instance. -/
theorem find?_cons_false {α : Type} (p : α → Bool) (a : α) (l : List α)
    (h : p a = false) : List.find? p (a :: l) = List.find? p l :=
  List.find?_cons_of_neg l (by simp [h])

/-- Looking up the key just set by dictSet yields the new value. -/
theorem find?_map_set_self (k : String) (v : JVal) (d : PrefObj)
    (h : d.any (fun p => p.1 == k) = true) :
    (d.map (fun p => if p.1 == k then (k, v) else p)).find? (fun p => p.1 == k) =
      some (k, v) := by
  induction d with
  | nil => simp at h
  | cons a t ih =>
    rw [List.map_cons]
    by_cases ha : (a.1 == k) = true
    · rw [if_pos ha, find?_cons_true (fun p => p.1 == k) (k, v) _ (beq_self_eq_true k)]
    · have ha2 : (a.1 == k) = false := by
        cases hq : (a.1 == k)
        · rfl
        · exact absurd hq ha
      have ht : t.any (fun p => p.1 == k) = true := by
        simp only [List.any_cons, ha2, Bool.false_or] at h
        exact h
      rw [if_neg ha, find?_cons_false (fun p => p.1 == k) a _ ha2]
      exact ih ht

/-- dictSet leaves lookups of other keys untouched (map branch). -/
theorem find?_map_set_ne (k k2 : String) (v : JVal) (h : k2 ≠ k) (d : PrefObj) :
    (d.map (fun p => if p.1 == k then (k, v) else p)).find? (fun p => p.1 == k2) =
      d.find? (fun p => p.1 == k2) := by
  induction d with
  | nil => rfl
  | cons a t ih =>
    rw [List.map_cons]
    by_cases ha : (a.1 == k) = true
    · have hak : a.1 = k := by simpa using ha
      have ha2 : (a.1 == k2) = false := by simp [hak, Ne.symm h]
      have hk2 : ((k : String) == k2) = false := by simp [Ne.symm h]
      rw [if_pos ha, find?_cons_false (fun p => p.1 == k2) (k, v) _ hk2,
        find?_cons_false (fun p => p.1 == k2) a _ ha2, ih]
    · rw [if_neg ha]
      by_cases hb : (a.1 == k2) = true
      · rw [find?_cons_true (fun p => p.1 == k2) a _ hb,
          find?_cons_true (fun p => p.1 == k2) a _ hb]
      · have hb2 : (a.1 == k2) = false := by
          cases hq : (a.1 == k2)
          · rfl
          · exact absurd hq hb
        rw [find?_cons_false (fun p => p.1 == k2) a _ hb2,
          find?_cons_false (fun p => p.1 == k2) a _ hb2, ih]

/-- Appending a fresh pair puts it at the end of the search order. -/
theorem find?_append_single_self (k : String) (v : JVal) (d : PrefObj)
    (h : d.any (fun p => p.1 == k) = false) :
    (d ++ [(k, v)]).find? (fun p => p.1 == k) = some (k, v) := by
  induction d with
  | nil =>
    rw [List.nil_append, find?_cons_true (fun p => p.1 == k) (k, v) _ (beq_self_eq_true k)]
  | cons a t ih =>
    simp only [List.any_cons, Bool.or_eq_false_iff] at h
    rw [List.cons_append, find?_cons_false (fun p => p.1 == k) a _ h.1]
    exact ih h.2

/-- Appending a pair with a different key never changes a lookup. -/
theorem find?_append_single_ne (k k2 : String) (v : JVal)
    (hk2 : ((k : String) == k2) = false) (d : PrefObj) :
    (d ++ [(k, v)]).find? (fun p => p.1 == k2) = d.find? (fun p => p.1 == k2) := by
  induction d with
  | nil =>
    rw [List.nil_append, find?_cons_false (fun p => p.1 == k2) (k, v) _ hk2]
  | cons a t ih =>
    by_cases hb : (a.1 == k2) = true
    · rw [List.cons_append, find?_cons_true (fun p => p.1 == k2) a _ hb,
        find?_cons_true (fun p => p.1 == k2) a _ hb]
    · have hb2 : (a.1 == k2) = false := by
        cases hq : (a.1 == k2)
        · rfl
        · exact absurd hq hb
      rw [List.cons_append, find?_cons_false (fun p => p.1 == k2) a _ hb2,
        find?_cons_false (fun p => p.1 == k2) a _ hb2, ih]

/-- Reading back the key just written by dictSet yields the new value. -/
theorem dictGet_dictSet (d : PrefObj) (k : String) (v : JVal) :
    dictGet (dictSet d k v) k = v := by
  by_cases h : d.any (fun p => p.1 == k) = true
  · have hset : dictSet d k v = d.map (fun p => if p.1 == k then (k, v) else p) := by
      unfold dictSet
      rw [if_pos h]
    rw [hset]
    unfold dictGet
    rw [find?_map_set_self k v d h]
  · have hf : d.any (fun p => p.1 == k) = false := by
      cases hq : d.any (fun p => p.1 == k)
      · rfl
      · exact absurd hq h
    have hset : dictSet d k v = d ++ [(k, v)] := by
      unfold dictSet
      rw [if_neg h]
    rw [hset]
    unfold dictGet
    rw [find?_append_single_self k v d hf]

/-- dictSet preserves the values of every other key. -/
theorem dictGet_dictSet_ne (d : PrefObj) (k k2 : String) (v : JVal) (h : k2 ≠ k) :
    dictGet (dictSet d k v) k2 = dictGet d k2 := by
  by_cases ha : d.any (fun p => p.1 == k) = true
  · have hset : dictSet d k v = d.map (fun p => if p.1 == k then (k, v) else p) := by
      unfold dictSet
      rw [if_pos ha]
    rw [hset]
    unfold dictGet
    rw [find?_map_set_ne k k2 v h d]
  · have hk2 : ((k : String) == k2) = false := by simp [Ne.symm h]
    have hset : dictSet d k v = d ++ [(k, v)] := by
      unfold dictSet
      rw [if_neg ha]
    rw [hset]
    unfold dictGet
    rw [find?_append_single_ne k k2 v hk2 d]

/-- The recovery handler of _load_preferences always returns the default
record. -/
theorem recoverWithDefault_prefs (w : FSWorld) (fs : FS) :
    (recoverWithDefault w fs).prefs = defaultPrefs := by
  unfold recoverWithDefault
  split <;> rfl

/-- The recovery handler of _load_preferences always logs the warning
first. -/
theorem recoverWithDefault_log (w : FSWorld) (fs : FS) :
    PrefLog.warnLoad ∈ (recoverWithDefault w fs).log := by
  unfold recoverWithDefault
  split <;> exact List.mem_cons_self _ _

/-- A successful recovery body leaves the returned handle in the global
cache slot. -/
theorem authRecoveryBody_ok_cache (w : AuthWorld) (c : Client)
    (h : (authRecoveryBody w).result = Except.ok c) :
    (authRecoveryBody w).cache = some c := by
  unfold authRecoveryBody at h ⊢
  repeat' split at h <;> try simp_all

/-- A successful get_authenticated_client call leaves the returned handle
cached. -/
theorem get_authenticated_client_ok_cache (w : AuthWorld) (cache : Option Client)
    (c : Client) (h : (get_authenticated_client w cache).result = Except.ok c) :
    (get_authenticated_client w cache).cache = some c := by
  cases cache with
  | none =>
    cases hb : authRecoveryBody w with
    | mk res st tr =>
      cases res with
      | ok cl =>
        have hcl := authRecoveryBody_ok_cache w cl (by rw [hb])
        rw [hb] at hcl
        simp only [get_authenticated_client, hb] at h ⊢
        injection h with h2
        rw [← h2]
        exact hcl
      | error e =>
        simp [get_authenticated_client, hb] at h
  | some c0 =>
    by_cases ht : w.testCached c0 = true
    · simp only [get_authenticated_client, ht, if_pos] at h ⊢
      injection h with h2
      rw [← h2]
    · cases hb : authRecoveryBody w with
      | mk res st tr =>
        cases res with
        | ok cl =>
          have hcl := authRecoveryBody_ok_cache w cl (by rw [hb])
          rw [hb] at hcl
          simp [get_authenticated_client, hb, ht] at h ⊢
          rw [← h]
          exact hcl
        | error e =>
          simp [get_authenticated_client, hb, ht] at h

/-! Claim theorems. -/

/-- C3: for every subset of the required environment variables that is
unset or set to an empty value, load_and_validate_env raises an error
whose message names every variable of that subset (each missing name
occurs verbatim in the single aggregated message), and when no required
variable is missing it returns normally. -/
theorem validate_env_reports_all_missing
    (env : String → Option String) (required : List String) :
    ((∀ v ∈ required, envTruthy env v = true) →
      load_and_validate_env env required = Except.ok ()) ∧
    (∀ v ∈ required, envTruthy env v = false →
      load_and_validate_env env required =
        Except.error
          ("Missing required environment variables: " ++
            strJoin ", " (missingVars env required)) ∧
      StrIncludes v
        ("Missing required environment variables: " ++
          strJoin ", " (missingVars env required))) := by
  constructor
  · intro hall
    have hnil : missingVars env required = [] := by
      unfold missingVars
      rw [List.filter_eq_nil_iff]
      intro a ha
      simp [hall a ha]
    simp [load_and_validate_env, hnil]
  · intro v hv hmiss
    have hvmem : v ∈ missingVars env required := by
      unfold missingVars
      rw [List.mem_filter]
      exact ⟨hv, by simp [hmiss]⟩
    have hne : (missingVars env required).isEmpty = false := by
      cases hq : missingVars env required with
      | nil => rw [hq] at hvmem; cases hvmem
      | cons a t => simp
    refine ⟨by simp [load_and_validate_env, hne], ?_⟩
    exact strIncludes_append_left _ _ _ (infix_strJoin ", " v _ hvmem)

/-- C3 witness: with only KROGER_CLIENT_ID set, validating the three
user-mode variables fails with a message naming both missing variables. -/
theorem validate_env_reports_all_missing_witness :
    load_and_validate_env envOnlyId requiredUserVars =
      Except.error
        ("Missing required environment variables: " ++
          strJoin ", " (missingVars envOnlyId requiredUserVars)) ∧
    StrIncludes "KROGER_CLIENT_SECRET"
      ("Missing required environment variables: " ++
        strJoin ", " (missingVars envOnlyId requiredUserVars)) ∧
    StrIncludes "KROGER_REDIRECT_URI"
      ("Missing required environment variables: " ++
        strJoin ", " (missingVars envOnlyId requiredUserVars)) := by
  refine ⟨((validate_env_reports_all_missing envOnlyId requiredUserVars).2
    "KROGER_CLIENT_SECRET" (by simp [requiredUserVars]) rfl).1, ?_, ?_⟩
  · exact ((validate_env_reports_all_missing envOnlyId requiredUserVars).2
      "KROGER_CLIENT_SECRET" (by simp [requiredUserVars]) rfl).2
  · exact ((validate_env_reports_all_missing envOnlyId requiredUserVars).2
      "KROGER_REDIRECT_URI" (by simp [requiredUserVars]) rfl).2

/-- C4: when a call returns a handle successfully, a second consecutive
call whose validity check passes returns the identical cached handle,
with the cache unchanged and a trace holding exactly the one validity
check: no configuration validation, token load, construction or refresh. -/
theorem cached_valid_second_call (w1 w2 : AuthWorld) (cache : Option Client)
    (c : Client) (h1 : (get_authenticated_client w1 cache).result = Except.ok c)
    (h2 : w2.testCached c = true) :
    get_authenticated_client w2 (get_authenticated_client w1 cache).cache =
      ⟨Except.ok c, some c, [Effect.testToken c]⟩ := by
  rw [get_authenticated_client_ok_cache w1 cache c h1]
  simp only [get_authenticated_client, h2, if_pos]

/-- C4 witness: a first call that recovers a handle, then a second call
with the token still valid, returns the same handle with a single
validity check. -/
theorem cached_valid_second_call_witness :
    get_authenticated_client wCachedValid
        (get_authenticated_client
          (⟨envFull, Except.ok (some tokenWithRefresh), Except.ok 7, true,
            Except.ok (), false, fun _ => true⟩ : AuthWorld) none).cache =
      ⟨Except.ok 7, some 7, [Effect.testToken 7]⟩ :=
  cached_valid_second_call _ wCachedValid none 7 rfl rfl

/-- C2: when the environment is complete, a persisted token record loads,
its token fails validation, a refresh credential is present, the client
was constructed, and the refresh operation itself raises, the call fails
with the authentication-required signal, not a generically wrapped
failure. -/
theorem failed_refresh_raises_auth_required (w : AuthWorld) (ti : TokenInfo)
    (e : String) (c : Client)
    (henv : ∀ v ∈ requiredUserVars, envTruthy w.env v = true)
    (hload : w.loadToken = Except.ok (some ti))
    (hcons : w.construct = Except.ok c)
    (htest : w.testLoaded = false)
    (href : ti.hasRefreshToken = true)
    (hfail : w.refresh = Except.error e) :
    (get_authenticated_client w none).result = Except.error authRequiredMsg := by
  have h1 := henv "KROGER_CLIENT_ID" (by simp [requiredUserVars])
  have h2 := henv "KROGER_CLIENT_SECRET" (by simp [requiredUserVars])
  have h3 := henv "KROGER_REDIRECT_URI" (by simp [requiredUserVars])
  have hbody : authRecoveryBody w =
      ⟨Except.error authRequiredMsg, none,
        [Effect.validateEnv, Effect.loadToken, Effect.constructClient,
          Effect.testToken c, Effect.refreshToken]⟩ := by
    simp [authRecoveryBody, load_and_validate_env, missingVars, requiredUserVars,
      h1, h2, h3, hload, hcons, htest, href, hfail]
  simp [get_authenticated_client, hbody, wrapAuthError_authRequiredMsg]

/-- C2 witness: the concrete failed-refresh world yields the
authentication-required signal. -/
theorem failed_refresh_raises_auth_required_witness :
    (get_authenticated_client wRefreshFail none).result =
      Except.error authRequiredMsg :=
  failed_refresh_raises_auth_required wRefreshFail tokenWithRefresh "boom" 7
    (fun _ _ => rfl) rfl rfl rfl rfl rfl

/-- C1 counterexample: the except handler recognises the signal by
message text, so a token-load failure whose message merely contains the
phrase Authentication required is re-raised unchanged instead of being
wrapped; the resulting message does not carry the Authentication failed
prefix the claim requires for non-signal failures. -/
theorem token_load_error_passes_unwrapped :
    (get_authenticated_client wTokenLeak none).result =
      Except.error "Authentication required marker inside an unrelated token file error" ∧
    ¬ StrIncludes "Authentication failed: "
        "Authentication required marker inside an unrelated token file error" := by
  constructor
  · rfl
  · decide

/-- C1 (amended): every failure raised during recovery passes through a
handler that decides by message content, not by error kind: a failure
whose message contains the phrase Authentication required is re-raised
unchanged (in particular the authentication-required signal itself), and
every failure whose message does not contain that phrase, which covers
the missing-configuration, token-load and construction errors, is
re-raised wrapped with the Authentication failed prefix carrying the
original message. -/
theorem recovery_failures_wrapped_by_content (w : AuthWorld) (e : String)
    (h : (authRecoveryBody w).result = Except.error e) :
    (strContains e "Authentication required" = true →
      (get_authenticated_client w none).result = Except.error e) ∧
    (strContains e "Authentication required" = false →
      (get_authenticated_client w none).result =
        Except.error ("Authentication failed: " ++ e)) ∧
    (e = authRequiredMsg →
      (get_authenticated_client w none).result = Except.error authRequiredMsg) := by
  cases hb : authRecoveryBody w with
  | mk res st tr =>
    rw [hb] at h
    simp only at h
    subst h
    refine ⟨?_, ?_, ?_⟩
    · intro hc
      simp [get_authenticated_client, hb, wrapAuthError, hc]
    · intro hc
      simp [get_authenticated_client, hb, wrapAuthError, hc]
    · intro hc
      subst hc
      simp [get_authenticated_client, hb, wrapAuthError_authRequiredMsg]

/-- C1 witness: an ordinary construction failure is re-raised wrapped
with the Authentication failed prefix and the original message. -/
theorem recovery_failures_wrapped_by_content_witness :
    (get_authenticated_client wConstructFail none).result =
      Except.error ("Authentication failed: " ++ "construction blew up") :=
  ((recovery_failures_wrapped_by_content wConstructFail "construction blew up"
    rfl).2.1) rfl

/-- With no failure injected, _save_preferences succeeds and the file
afterwards holds exactly the written object. -/
theorem save_noFail (fs : FS) (p : PrefObj) :
    save_preferences noFail fs p =
      ⟨Except.ok (), ⟨true, some (FileContent.obj p), false⟩, [PrefLog.savedOk]⟩ := rfl

/-- With no failure injected, loading a file holding a valid object
returns that object unchanged. -/
theorem load_noFail_obj (dir tmp : Bool) (d : PrefObj) :
    load_preferences noFail ⟨dir, some (FileContent.obj d), tmp⟩ =
      ⟨d, ⟨true, some (FileContent.obj d), tmp⟩, []⟩ := rfl

/-- With no failure injected, set_preferred_location_id succeeds, its
read-after-write verification passes, and the file afterwards holds the
loaded object with the one key updated. -/
theorem set_noFail (fs : FS) (locId : String) :
    (set_preferred_location_id noFail fs locId).result = Except.ok () ∧
    (set_preferred_location_id noFail fs locId).fs =
      ⟨true, some (FileContent.obj (dictSet (load_preferences noFail fs).prefs
        "preferred_location_id" (JVal.str locId))), false⟩ := by
  cases hl : load_preferences noFail fs with
  | mk p1 fs1 lg1 =>
    have hkey := dictGet_dictSet p1 "preferred_location_id" (JVal.str locId)
    unfold set_preferred_location_id
    simp [save_noFail, load_noFail_obj, hkey, hl]

/-- The verification message of set_preferred_location_id names both the
expected and the reloaded value. -/
theorem verifyFailMsg_names_both (expected : String) (got : JVal) :
    StrIncludes expected (verifyFailMsg expected got) ∧
    StrIncludes (jvalText got) (verifyFailMsg expected got) := by
  constructor
  · exact ⟨"Failed to save preferred location. Expected: ".data,
      (", Got: " ++ jvalText got).data,
      by simp [verifyFailMsg, String.data_append]⟩
  · exact ⟨("Failed to save preferred location. Expected: " ++ expected ++ ", Got: ").data,
      [], by simp [verifyFailMsg, String.data_append]⟩

/-- C5: with the filesystem behaving normally, setting then getting the
preferred location returns exactly the id written, from any starting
state; and in any world where the save step reports success but the
post-save reload yields a different value for the key, the call fails
with the verification error whose message names both the expected and
the actual value. -/
theorem set_then_get_and_verification (fs : FS) (locId : String) (w : FSWorld) :
    ((set_preferred_location_id noFail fs locId).result = Except.ok () ∧
     (get_preferred_location_id noFail
        (set_preferred_location_id noFail fs locId).fs).value = JVal.str locId) ∧
    (∀ p1 fs1 lg1 fs2 lg2 p3 fs3 lg3,
      load_preferences w fs = ⟨p1, fs1, lg1⟩ →
      save_preferences w fs1 (dictSet p1 "preferred_location_id" (JVal.str locId)) =
        ⟨Except.ok (), fs2, lg2⟩ →
      load_preferences w fs2 = ⟨p3, fs3, lg3⟩ →
      dictGet p3 "preferred_location_id" ≠ JVal.str locId →
      (set_preferred_location_id w fs locId).result =
        Except.error (PyErr.generic (verifyFailMsg locId
          (dictGet p3 "preferred_location_id"))) ∧
      StrIncludes locId (verifyFailMsg locId (dictGet p3 "preferred_location_id")) ∧
      StrIncludes (jvalText (dictGet p3 "preferred_location_id"))
        (verifyFailMsg locId (dictGet p3 "preferred_location_id"))) := by
  constructor
  · obtain ⟨hres, hfs⟩ := set_noFail fs locId
    refine ⟨hres, ?_⟩
    rw [hfs]
    simp [get_preferred_location_id, load_noFail_obj, dictGet_dictSet]
  · intro p1 fs1 lg1 fs2 lg2 p3 fs3 lg3 hl hs hr hne
    refine ⟨?_, (verifyFailMsg_names_both locId _).1,
      (verifyFailMsg_names_both locId _).2⟩
    unfold set_preferred_location_id
    simp [hl, hs, hr, hne]

/-- C5 witness: a normal set followed by a get returns the id written,
and with a silently failing rename the verification error names the
expected and the reloaded value. -/
theorem set_then_get_and_verification_witness :
    (set_preferred_location_id noFail fsOther "123").result = Except.ok () ∧
    (get_preferred_location_id noFail
       (set_preferred_location_id noFail fsOther "123").fs).value = JVal.str "123" ∧
    (set_preferred_location_id wRenameSilent fsOther "123").result =
      Except.error (PyErr.generic (verifyFailMsg "123" JVal.null)) ∧
    StrIncludes "123" (verifyFailMsg "123" JVal.null) ∧
    StrIncludes (jvalText JVal.null) (verifyFailMsg "123" JVal.null) := by
  refine ⟨(set_then_get_and_verification fsOther "123" wRenameSilent).1.1,
    (set_then_get_and_verification fsOther "123" wRenameSilent).1.2, ?_, ?_, ?_⟩
  · exact ((set_then_get_and_verification fsOther "123" wRenameSilent).2
      [("other", JVal.str "keep")] fsOther [] fsOther [PrefLog.savedOk]
      [("other", JVal.str "keep")] fsOther [] rfl rfl rfl (by decide)).1
  · exact ((set_then_get_and_verification fsOther "123" wRenameSilent).2
      [("other", JVal.str "keep")] fsOther [] fsOther [PrefLog.savedOk]
      [("other", JVal.str "keep")] fsOther [] rfl rfl rfl (by decide)).2.1
  · exact ((set_then_get_and_verification fsOther "123" wRenameSilent).2
      [("other", JVal.str "keep")] fsOther [] fsOther [PrefLog.savedOk]
      [("other", JVal.str "keep")] fsOther [] rfl rfl rfl (by decide)).2.2

/-- C6: a save followed by a load round-trips every key of the record,
unknown keys included; and set_preferred_location_id performs a
load-modify-save of the whole object: the file afterwards holds the
previously stored object with only the preferred_location_id key
changed, every other key keeping its value. -/
theorem prefs_roundtrip_and_preserve_unknown (fs : FS) (d : PrefObj)
    (locId k : String) (dir tmp : Bool) :
    (load_preferences noFail (save_preferences noFail fs d).fs).prefs = d ∧
    (k ≠ "preferred_location_id" →
      (set_preferred_location_id noFail
          ⟨dir, some (FileContent.obj d), tmp⟩ locId).fs.file =
        some (FileContent.obj (dictSet d "preferred_location_id" (JVal.str locId))) ∧
      dictGet (dictSet d "preferred_location_id" (JVal.str locId)) k = dictGet d k) := by
  constructor
  · rw [save_noFail]
    rfl
  · intro hk
    constructor
    · obtain ⟨hres, hfs⟩ := set_noFail ⟨dir, some (FileContent.obj d), tmp⟩ locId
      rw [hfs, load_noFail_obj dir tmp d]
    · exact dictGet_dictSet_ne d "preferred_location_id" k (JVal.str locId) hk

/-- C6 witness: a record carrying only an unknown key round-trips, and a
set of the preferred location keeps the unknown key and its value. -/
theorem prefs_roundtrip_and_preserve_unknown_witness :
    (load_preferences noFail (save_preferences noFail fsOther
        [("other", JVal.str "keep")]).fs).prefs = [("other", JVal.str "keep")] ∧
    (set_preferred_location_id noFail fsOther "123").fs.file =
      some (FileContent.obj (dictSet [("other", JVal.str "keep")]
        "preferred_location_id" (JVal.str "123"))) ∧
    dictGet (dictSet [("other", JVal.str "keep")] "preferred_location_id"
        (JVal.str "123")) "other" = dictGet [("other", JVal.str "keep")] "other" := by
  refine ⟨(prefs_roundtrip_and_preserve_unknown fsOther
    [("other", JVal.str "keep")] "123" "other" true false).1, ?_, ?_⟩
  · exact ((prefs_roundtrip_and_preserve_unknown fsOther
      [("other", JVal.str "keep")] "123" "other" true false).2 (by decide)).1
  · exact ((prefs_roundtrip_and_preserve_unknown fsOther
      [("other", JVal.str "keep")] "123" "other" true false).2 (by decide)).2

/-- C7 counterexample: with the preferences file present but empty, the
load returns the default record silently: no warning is logged and the
file is not overwritten with the default, contrary to the claim for the
empty-file case. -/
theorem empty_file_load_is_silent :
    load_preferences noFail fsEmptyFile = ⟨defaultPrefs, fsEmptyFile, []⟩ ∧
    PrefLog.warnLoad ∉ (load_preferences noFail fsEmptyFile).log ∧
    (load_preferences noFail fsEmptyFile).fs.file ≠
      some (FileContent.obj defaultPrefs) := by
  refine ⟨rfl, ?_, ?_⟩ <;> decide

/-- C7 (amended): when the preferences file contains invalid JSON the
load logs a warning, returns the default record in memory and attempts a
best-effort rewrite of the file with the default (when the rewrite steps
succeed the file afterwards holds the default record; a rewrite failure
is swallowed and the default is still returned); when the file exists
but is empty the load returns the default silently, with no warning and
no rewrite. -/
theorem load_recovery_by_content (w : FSWorld) (dir tmp : Bool)
    (hmk : w.makedirsFails = false) (hrd : w.readFails = false) :
    ((load_preferences w ⟨dir, some FileContent.invalidJson, tmp⟩).prefs =
        defaultPrefs ∧
     PrefLog.warnLoad ∈
        (load_preferences w ⟨dir, some FileContent.invalidJson, tmp⟩).log ∧
     (w.writeTempFails = false → w.renameFails = false → w.renameSilent = false →
        (load_preferences w ⟨dir, some FileContent.invalidJson, tmp⟩).fs.file =
          some (FileContent.obj defaultPrefs))) ∧
    load_preferences w ⟨dir, some FileContent.emptyFile, tmp⟩ =
      ⟨defaultPrefs, ⟨true, some FileContent.emptyFile, tmp⟩, []⟩ := by
  constructor
  · refine ⟨?_, ?_, ?_⟩
    · simp [load_preferences, hmk, hrd, recoverWithDefault_prefs]
    · simp [load_preferences, hmk, hrd, recoverWithDefault_log]
    · intro hw hrn hsl
      simp [load_preferences, hmk, hrd, recoverWithDefault, save_preferences,
        hw, hrn, hsl]
  · simp [load_preferences, hmk, hrd]

/-- C7 witness: a concrete invalid-JSON file yields the default record,
the warning, and the rewritten file; a concrete empty file yields the
silent default. -/
theorem load_recovery_by_content_witness :
    (load_preferences noFail fsInvalid).prefs = defaultPrefs ∧
    PrefLog.warnLoad ∈ (load_preferences noFail fsInvalid).log ∧
    (load_preferences noFail fsInvalid).fs.file =
      some (FileContent.obj defaultPrefs) ∧
    load_preferences noFail fsEmptyFile =
      ⟨defaultPrefs, ⟨true, some FileContent.emptyFile, false⟩, []⟩ := by
  refine ⟨(load_recovery_by_content noFail true false rfl rfl).1.1,
    (load_recovery_by_content noFail true false rfl rfl).1.2.1,
    (load_recovery_by_content noFail true false rfl rfl).1.2.2 rfl rfl rfl,
    (load_recovery_by_content noFail true false rfl rfl).2⟩

/-- C8: for every failure-injection world and filesystem state,
_load_preferences returns a record to its caller: either the object
stored in a readable valid file, or the default record substituted by a
recovery branch; the model being a total function mirrors that every
Python path of the function returns instead of raising. -/
theorem load_preferences_total_recovery (w : FSWorld) (fs : FS) :
    (load_preferences w fs).prefs = defaultPrefs ∨
    (∃ d, fs.file = some (FileContent.obj d) ∧ (load_preferences w fs).prefs = d) := by
  obtain ⟨dir, file, tmp⟩ := fs
  cases hmk : w.makedirsFails with
  | true =>
    left
    simp only [load_preferences, hmk, if_true]
    exact recoverWithDefault_prefs w _
  | false =>
    cases file with
    | none =>
      left
      simp [load_preferences, hmk]
      repeat' split
      all_goals rfl
    | some content =>
      cases hrd : w.readFails with
      | true =>
        left
        cases content <;>
          simp [load_preferences, hmk, hrd, recoverWithDefault_prefs]
      | false =>
        cases content with
        | emptyFile =>
          left
          simp [load_preferences, hmk, hrd]
        | invalidJson =>
          left
          simp [load_preferences, hmk, hrd, recoverWithDefault_prefs]
        | obj d =>
          right
          exact ⟨d, rfl, by simp [load_preferences, hmk, hrd]⟩

/-- C9: evaluated at the failing input, a directory-creation failure
makes the except handler of _save_preferences touch temp_file before it
was assigned, so the call raises UnboundLocalError and the original
error is lost rather than re-raised; on the temp-write and rename steps
the original error is re-raised and the leftover temporary file removed
best-effort (a removal failure is swallowed, leaving the temp file, and
the original error is still re-raised). -/
theorem save_failure_behaviour :
    (save_preferences wMakedirsFail fsOther defaultPrefs).result =
      Except.error (PyErr.unboundLocal "temp_file") ∧
    (save_preferences wWriteFail fsOther defaultPrefs).result =
      Except.error (PyErr.ioError "write") ∧
    (save_preferences wWriteFail fsOther defaultPrefs).fs.temp = false ∧
    (save_preferences wRenameFail fsOther defaultPrefs).result =
      Except.error (PyErr.ioError "rename") ∧
    (save_preferences wRenameFail fsOther defaultPrefs).fs.temp = false ∧
    (save_preferences ⟨false, false, true, false, false, true⟩ fsOther
        defaultPrefs).result = Except.error (PyErr.ioError "write") ∧
    (save_preferences ⟨false, false, true, false, false, true⟩ fsOther
        defaultPrefs).fs.temp = true := by
  decide

/-- C10: a valid JSON object lacking the preferred_location_id key is
tolerated: get_preferred_location_id returns null (Python None), the
file is left exactly as it was, and only the normal retrieval diagnostic
is printed. -/
theorem missing_key_returns_null (dir tmp : Bool) (d : PrefObj)
    (h : d.find? (fun p => p.1 == "preferred_location_id") = none) :
    get_preferred_location_id noFail ⟨dir, some (FileContent.obj d), tmp⟩ =
      ⟨JVal.null, ⟨true, some (FileContent.obj d), tmp⟩,
        [PrefLog.retrievedId JVal.null]⟩ := by
  have hd : dictGet d "preferred_location_id" = JVal.null := by
    unfold dictGet
    rw [h]
  simp [get_preferred_location_id, load_noFail_obj, hd]

/-- C10 witness: a concrete record with only an unknown key yields null
and leaves the file untouched. -/
theorem missing_key_returns_null_witness :
    get_preferred_location_id noFail fsNoKey =
      ⟨JVal.null, fsNoKey, [PrefLog.retrievedId JVal.null]⟩ :=
  missing_key_returns_null true false [("other", JVal.num 3)] rfl
